import Mathlib

/-!
Shallow embedding of `src/main.py` (Image-merger repository).

The source defines `GroupImagesService`, which merges two PIL images either
vertically or horizontally.  We model:

  * a PIL image as a record of mode string, width, height and a pixel
    function (RGB triples);
  * the Python expression `int(h * T / w)` — exact integer product, float
    true-division, truncation toward zero — as exact natural floor division
    `h * T / w`, raising `ZeroDivisionError` when `w = 0` exactly as Python
    does (floats are modelled as exact rationals; all quantities involved
    are nonnegative, so truncation is floor);
  * `Image.resize` as producing a fresh image of the requested size whose
    pixels come from an abstract resampling function (the LANCZOS filter is
    a parameter: its pixel values are irrelevant to every dimensional
    claim);
  * `Image.new "RGB" (w, h)` as a fresh black RGB image;
  * `Image.paste dst src (x, y)` as a functional update of the destination
    pixel grid on the pasted rectangle;
  * the service `__call__` orientation dispatch, with the raw orientation
    slot allowed to hold a value outside the two enum members (Python does
    not enforce the annotation), and `ValueError("Unsupported merge
    orientation")` for the `else` branch.

A separate heap-passing model (`Heap`, `heapMergeImagesVertically`, …)
makes buffer identity explicit: `resize` and `Image.new` allocate fresh
buffers and `paste` mutates only its target buffer, so that non-mutation of
the inputs is a real statement rather than a triviality of pure functions.
-/

/-- An RGB pixel value. -/
structure Pixel where
  r : Nat
  g : Nat
  b : Nat
deriving DecidableEq, Repr

/-- A decoded PIL image: mode string, dimensions, and pixel grid.
Pixels outside `[0, width) × [0, height)` are junk and never constrained. -/
structure PILImage where
  mode : String
  width : Nat
  height : Nat
  pix : Nat → Nat → Pixel

/-- A resampling filter: given the source image and the target width and
height, produce the pixel grid of the resized image.  `Image.Resampling.LANCZOS`
is one such function; no dimensional claim depends on its values. -/
abbrev Resample := PILImage → Nat → Nat → (Nat → Nat → Pixel)

/-- Python exceptions that the modelled code can raise. -/
inductive PyError where
  /-- `ZeroDivisionError`, raised by `h * T / w` when `w = 0`. -/
  | zeroDivisionError
  /-- `ValueError("Unsupported merge orientation")` from the `else` branch
  of `__call__`. -/
  | valueErrorUnsupportedOrientation
deriving DecidableEq, Repr

/-- The raw value stored in `GroupImagesInputDTO.orientation`.  Python does
not enforce the `MergeOrientation` annotation, so the slot may hold the
`VERTICAL` member, the `HORIZONTAL` member, or any other value. -/
inductive OrientationValue where
  | vertical
  | horizontal
  | other (v : String)
deriving DecidableEq, Repr

/-- `int(h * T / w)`: Python computes the exact integer product `h * T`,
divides by `w` with float true-division (raising `ZeroDivisionError` when
`w = 0`), and `int` truncates toward zero.  All values are nonnegative, so
this is exact floor division `h * T / w` on naturals. -/
def scaledDim (h T w : Nat) : Except PyError Nat :=
  if w = 0 then Except.error PyError.zeroDivisionError
  else Except.ok (h * T / w)

/-- `image.resize((w, h), Image.Resampling.LANCZOS)`: a fresh image of the
requested size, same mode, pixels given by the resampling filter. -/
def resizeImage (resample : Resample) (img : PILImage) (w h : Nat) : PILImage :=
  { mode := img.mode, width := w, height := h, pix := resample img w h }

/-- The black pixel that `Image.new "RGB"` fills with. -/
def blackPixel : Pixel := ⟨0, 0, 0⟩

/-- `Image.new("RGB", (w, h))`: a fresh black 3-channel RGB image. -/
def newRGB (w h : Nat) : PILImage :=
  { mode := "RGB", width := w, height := h, pix := fun _ _ => blackPixel }

/-- `dst.paste(src, (px, py))`: overwrite the rectangle of `dst` starting at
`(px, py)` with the pixels of `src` (converted to the destination mode). -/
def pasteAt (dst src : PILImage) (px py : Nat) : PILImage :=
  { dst with
    pix := fun x y =>
      if px ≤ x ∧ x < px + src.width ∧ py ≤ y ∧ y < py + src.height then
        src.pix (x - px) (y - py)
      else dst.pix x y }

/-- `GroupImagesService._merge_images_vertically`.  Mirrors the source line
by line: compute `max_width`, resize each image to that width with height
`int(height * max_width / width)`, allocate an RGB canvas of the combined
height, paste image1 at `(0, 0)` and image2 at `(0, image1.height)` where
`image1` has been rebound to its resized version. -/
def mergeImagesVertically (resample : Resample) (image1 image2 : PILImage) :
    Except PyError PILImage := do
  let maxWidth := max image1.width image2.width
  let newH1 ← scaledDim image1.height maxWidth image1.width
  let image1 := resizeImage resample image1 maxWidth newH1
  let newH2 ← scaledDim image2.height maxWidth image2.width
  let image2 := resizeImage resample image2 maxWidth newH2
  let combinedHeight := image1.height + image2.height
  let result := newRGB maxWidth combinedHeight
  let result := pasteAt result image1 0 0
  let result := pasteAt result image2 0 image1.height
  pure result

/-- `GroupImagesService._merge_images_horizontally`.  Symmetric: compute
`max_height`, resize each image to that height with width
`int(width * max_height / height)`, allocate an RGB canvas of the combined
width, paste image1 at `(0, 0)` and image2 at `(image1.width, 0)`. -/
def mergeImagesHorizontally (resample : Resample) (image1 image2 : PILImage) :
    Except PyError PILImage := do
  let maxHeight := max image1.height image2.height
  let newW1 ← scaledDim image1.width maxHeight image1.height
  let image1 := resizeImage resample image1 (newW1) maxHeight
  let newW2 ← scaledDim image2.width maxHeight image2.height
  let image2 := resizeImage resample image2 (newW2) maxHeight
  let combinedWidth := image1.width + image2.width
  let result := newRGB combinedWidth maxHeight
  let result := pasteAt result image1 0 0
  let result := pasteAt result image2 image1.width 0
  pure result

/-- The orientation dispatch of `GroupImagesService.__call__` on the two
already-decoded images: `VERTICAL` and `HORIZONTAL` select the respective
merge, anything else raises `ValueError("Unsupported merge orientation")`.
Byte decoding and JPEG encoding are outside the merge core. -/
def serviceCall (resample : Resample) (orientation : OrientationValue)
    (image1 image2 : PILImage) : Except PyError PILImage :=
  match orientation with
  | OrientationValue.vertical => mergeImagesVertically resample image1 image2
  | OrientationValue.horizontal => mergeImagesHorizontally resample image1 image2
  | OrientationValue.other _ => Except.error PyError.valueErrorUnsupportedOrientation

/-- A concrete resampling filter for concrete evaluations (pixel values are
irrelevant to the claims, which are about dimensions and layout). -/
def constResample : Resample := fun _ _ _ _ _ => blackPixel

/-- A concrete image of the given mode and size with constant pixels. -/
def mkImage (mo : String) (w h : Nat) : PILImage :=
  { mode := mo, width := w, height := h, pix := fun _ _ => blackPixel }

/-! ## Heap-passing model of buffer identity

The pure model above cannot distinguish "returns a new buffer" from
"mutates an input in place".  Here images live in a heap of buffers
addressed by natural numbers: `Image.resize` and `Image.new` allocate fresh
buffers (PIL returns new `Image` objects), and `Image.paste` mutates its
receiver buffer in place (it is the one mutating operation the source
uses, applied only to the freshly created result canvas). -/

/-- A heap of image buffers: addresses `0, …, size-1` are live. -/
structure Heap where
  size : Nat
  buf : Nat → PILImage

/-- Allocate a fresh buffer holding `img`; the fresh buffer's address is
the previous heap size. -/
def Heap.alloc (h : Heap) (img : PILImage) : Heap :=
  { size := h.size + 1, buf := fun i => if i = h.size then img else h.buf i }

/-- Overwrite the buffer at address `i` in place (models `Image.paste`
mutating its receiver). -/
def Heap.write (h : Heap) (i : Nat) (img : PILImage) : Heap :=
  { h with buf := fun j => if j = i then img else h.buf j }

/-- `_merge_images_vertically` with explicit buffers: each `resize`
allocates a fresh buffer (the locals `image1`, `image2` are rebound to the
new addresses, exactly as the Python rebinding), `Image.new` allocates the
result canvas, and each `paste` mutates the result canvas in place. -/
def heapMergeImagesVertically (resample : Resample) (h : Heap) (i1 i2 : Nat) :
    Except PyError (Heap × Nat) := do
  let img1 := h.buf i1
  let img2 := h.buf i2
  let maxWidth := max img1.width img2.width
  let newH1 ← scaledDim img1.height maxWidth img1.width
  let j1 := h.size
  let h := h.alloc (resizeImage resample img1 maxWidth newH1)
  let newH2 ← scaledDim img2.height maxWidth img2.width
  let j2 := h.size
  let h := h.alloc (resizeImage resample img2 maxWidth newH2)
  let combinedHeight := (h.buf j1).height + (h.buf j2).height
  let res := h.size
  let h := h.alloc (newRGB maxWidth combinedHeight)
  let h := h.write res (pasteAt (h.buf res) (h.buf j1) 0 0)
  let h := h.write res (pasteAt (h.buf res) (h.buf j2) 0 (h.buf j1).height)
  pure (h, res)

/-- `_merge_images_horizontally` with explicit buffers, symmetric to
`heapMergeImagesVertically`. -/
def heapMergeImagesHorizontally (resample : Resample) (h : Heap) (i1 i2 : Nat) :
    Except PyError (Heap × Nat) := do
  let img1 := h.buf i1
  let img2 := h.buf i2
  let maxHeight := max img1.height img2.height
  let newW1 ← scaledDim img1.width maxHeight img1.height
  let j1 := h.size
  let h := h.alloc (resizeImage resample img1 newW1 maxHeight)
  let newW2 ← scaledDim img2.width maxHeight img2.height
  let j2 := h.size
  let h := h.alloc (resizeImage resample img2 newW2 maxHeight)
  let combinedWidth := (h.buf j1).width + (h.buf j2).width
  let res := h.size
  let h := h.alloc (newRGB combinedWidth maxHeight)
  let h := h.write res (pasteAt (h.buf res) (h.buf j1) 0 0)
  let h := h.write res (pasteAt (h.buf res) (h.buf j2) (h.buf j1).width 0)
  pure (h, res)

/-- Orientation dispatch of `__call__` over the heap model. -/
def heapServiceCall (resample : Resample) (orientation : OrientationValue)
    (h : Heap) (i1 i2 : Nat) : Except PyError (Heap × Nat) :=
  match orientation with
  | OrientationValue.vertical => heapMergeImagesVertically resample h i1 i2
  | OrientationValue.horizontal => heapMergeImagesHorizontally resample h i1 i2
  | OrientationValue.other _ => Except.error PyError.valueErrorUnsupportedOrientation

/-! ## Names for the code's dimension expressions -/

/-- `max_width = max(image1.width, image2.width)` in `_merge_images_vertically`. -/
def targetWidthV (img1 img2 : PILImage) : Nat := max img1.width img2.width

/-- The height `int(img.height * T / img.width)` an image is resized to in
the vertical merge (exact value, defined when `img.width ≠ 0`). -/
def resizedHeightV (img : PILImage) (T : Nat) : Nat := img.height * T / img.width

/-- `max_height = max(image1.height, image2.height)` in `_merge_images_horizontally`. -/
def targetHeightH (img1 img2 : PILImage) : Nat := max img1.height img2.height

/-- The width `int(img.width * T / img.height)` an image is resized to in
the horizontal merge (exact value, defined when `img.height ≠ 0`). -/
def resizedWidthH (img : PILImage) (T : Nat) : Nat := img.width * T / img.height

/-- The full dimensional/layout specification of the vertical merge: the
merge succeeds, the result width is `max(width1, width2)`, the result
height is the sum of the two resized heights, each resized height is within
one pixel below the exact proportional height, image1's resized pixels
occupy rows `[0, resizedHeight1)` from position `(0,0)`, and image2's
resized pixels occupy rows `[resizedHeight1, resizedHeight1+resizedHeight2)`
from position `(0, resizedHeight1)`. -/
def VerticalMergeSpec (resample : Resample) (img1 img2 : PILImage) : Prop :=
  ∃ m, mergeImagesVertically resample img1 img2 = Except.ok m ∧
    m.width = max img1.width img2.width ∧
    m.height = resizedHeightV img1 (targetWidthV img1 img2)
             + resizedHeightV img2 (targetWidthV img1 img2) ∧
    ((resizedHeightV img1 (targetWidthV img1 img2) : ℚ)
        ≤ (img1.height : ℚ) * (targetWidthV img1 img2) / img1.width) ∧
    ((img1.height : ℚ) * (targetWidthV img1 img2) / img1.width
        ≤ (resizedHeightV img1 (targetWidthV img1 img2) : ℚ) + 1) ∧
    ((resizedHeightV img2 (targetWidthV img1 img2) : ℚ)
        ≤ (img2.height : ℚ) * (targetWidthV img1 img2) / img2.width) ∧
    ((img2.height : ℚ) * (targetWidthV img1 img2) / img2.width
        ≤ (resizedHeightV img2 (targetWidthV img1 img2) : ℚ) + 1) ∧
    (∀ x y, x < targetWidthV img1 img2 →
        y < resizedHeightV img1 (targetWidthV img1 img2) →
        m.pix x y = resample img1 (targetWidthV img1 img2)
          (resizedHeightV img1 (targetWidthV img1 img2)) x y) ∧
    (∀ x y, x < targetWidthV img1 img2 →
        resizedHeightV img1 (targetWidthV img1 img2) ≤ y →
        y < resizedHeightV img1 (targetWidthV img1 img2)
          + resizedHeightV img2 (targetWidthV img1 img2) →
        m.pix x y = resample img2 (targetWidthV img1 img2)
          (resizedHeightV img2 (targetWidthV img1 img2)) x
          (y - resizedHeightV img1 (targetWidthV img1 img2)))

/-- The full dimensional/layout specification of the horizontal merge,
symmetric to `VerticalMergeSpec`: result height `max(height1, height2)`,
result width the sum of the two resized widths, each resized width within
one pixel below the exact proportional width, image1 composited at `(0,0)`
and image2 at `(resizedWidth1, 0)`. -/
def HorizontalMergeSpec (resample : Resample) (img1 img2 : PILImage) : Prop :=
  ∃ m, mergeImagesHorizontally resample img1 img2 = Except.ok m ∧
    m.height = max img1.height img2.height ∧
    m.width = resizedWidthH img1 (targetHeightH img1 img2)
            + resizedWidthH img2 (targetHeightH img1 img2) ∧
    ((resizedWidthH img1 (targetHeightH img1 img2) : ℚ)
        ≤ (img1.width : ℚ) * (targetHeightH img1 img2) / img1.height) ∧
    ((img1.width : ℚ) * (targetHeightH img1 img2) / img1.height
        ≤ (resizedWidthH img1 (targetHeightH img1 img2) : ℚ) + 1) ∧
    ((resizedWidthH img2 (targetHeightH img1 img2) : ℚ)
        ≤ (img2.width : ℚ) * (targetHeightH img1 img2) / img2.height) ∧
    ((img2.width : ℚ) * (targetHeightH img1 img2) / img2.height
        ≤ (resizedWidthH img2 (targetHeightH img1 img2) : ℚ) + 1) ∧
    (∀ x y, y < targetHeightH img1 img2 →
        x < resizedWidthH img1 (targetHeightH img1 img2) →
        m.pix x y = resample img1
          (resizedWidthH img1 (targetHeightH img1 img2))
          (targetHeightH img1 img2) x y) ∧
    (∀ x y, y < targetHeightH img1 img2 →
        resizedWidthH img1 (targetHeightH img1 img2) ≤ x →
        x < resizedWidthH img1 (targetHeightH img1 img2)
          + resizedWidthH img2 (targetHeightH img1 img2) →
        m.pix x y = resample img2
          (resizedWidthH img2 (targetHeightH img1 img2))
          (targetHeightH img1 img2)
          (x - resizedWidthH img1 (targetHeightH img1 img2)) y)

/-- Round half up, the first rounding the spec allows. -/
def roundHalfUp (q : ℚ) : ℤ := ⌊q + 1 / 2⌋

/-- Round half to even, the second rounding the spec allows. -/
def roundHalfEven (q : ℚ) : ℤ :=
  if q - ⌊q⌋ < 1 / 2 then ⌊q⌋
  else if 1 / 2 < q - ⌊q⌋ then ⌊q⌋ + 1
  else if Even ⌊q⌋ then ⌊q⌋ else ⌊q⌋ + 1

/-- A concrete heap with two images at addresses 0 and 1. -/
def demoHeap : Heap :=
  { size := 2, buf := fun i => if i = 0 then mkImage "RGB" 3 4 else mkImage "RGB" 5 6 }

/-- Strip a merge outcome to its dimensions (success) or its error. -/
def dimsOutcome (e : Except PyError PILImage) : Except PyError (Nat × Nat) :=
  Except.map (fun m => (m.width, m.height)) e

/-- A second concrete resampling filter with different pixel values. -/
def altResample : Resample := fun _ _ _ _ _ => ⟨255, 0, 0⟩

/-! ## Computed forms of the merges and arithmetic bounds -/

lemma mergeImagesVertically_eq (resample : Resample) (img1 img2 : PILImage)
    (hw1 : img1.width ≠ 0) (hw2 : img2.width ≠ 0) :
    mergeImagesVertically resample img1 img2 =
      Except.ok (pasteAt
        (pasteAt (newRGB (targetWidthV img1 img2)
            (resizedHeightV img1 (targetWidthV img1 img2) +
              resizedHeightV img2 (targetWidthV img1 img2)))
          (resizeImage resample img1 (targetWidthV img1 img2)
            (resizedHeightV img1 (targetWidthV img1 img2))) 0 0)
        (resizeImage resample img2 (targetWidthV img1 img2)
          (resizedHeightV img2 (targetWidthV img1 img2))) 0
        (resizedHeightV img1 (targetWidthV img1 img2))) := by
  simp only [mergeImagesVertically, scaledDim, hw1, hw2, if_false, targetWidthV,
    resizedHeightV, resizeImage, if_neg hw1, if_neg hw2]
  rfl

lemma mergeImagesHorizontally_eq (resample : Resample) (img1 img2 : PILImage)
    (hh1 : img1.height ≠ 0) (hh2 : img2.height ≠ 0) :
    mergeImagesHorizontally resample img1 img2 =
      Except.ok (pasteAt
        (pasteAt (newRGB
            (resizedWidthH img1 (targetHeightH img1 img2) +
              resizedWidthH img2 (targetHeightH img1 img2))
            (targetHeightH img1 img2))
          (resizeImage resample img1
            (resizedWidthH img1 (targetHeightH img1 img2)) (targetHeightH img1 img2)) 0 0)
        (resizeImage resample img2
          (resizedWidthH img2 (targetHeightH img1 img2)) (targetHeightH img1 img2))
        (resizedWidthH img1 (targetHeightH img1 img2)) 0) := by
  simp only [mergeImagesHorizontally, scaledDim, hh1, hh2, targetHeightH,
    resizedWidthH, resizeImage, if_neg hh1, if_neg hh2]
  rfl

/-- Floor division understates the exact ratio. -/
lemma natDiv_le_ratio (a w : Nat) (hw : 0 < w) :
    ((a / w : Nat) : ℚ) ≤ (a : ℚ) / (w : ℚ) := by
  rw [le_div_iff₀ (by exact_mod_cast hw)]
  exact_mod_cast Nat.div_mul_le_self a w

/-- Floor division understates the exact ratio by less than one. -/
lemma ratio_le_natDiv_succ (a w : Nat) (hw : 0 < w) :
    (a : ℚ) / (w : ℚ) ≤ ((a / w : Nat) : ℚ) + 1 := by
  rw [div_le_iff₀ (by exact_mod_cast hw)]
  have h1 := Nat.div_add_mod a w
  have h2 := Nat.mod_lt a hw
  have h3 : a < (a / w + 1) * w := by
    calc a = w * (a / w) + a % w := h1.symm
      _ < w * (a / w) + w := by omega
      _ = (a / w + 1) * w := by ring
  exact_mod_cast le_of_lt h3

/-! ## Claim theorems -/

/-- C6: for image A = 100×200 and image B = 50×50, the VERTICAL merge uses
targetWidth = 100, leaves A's dimensions at 100×200, resizes B to 100×100,
and yields a 100×300 result; the HORIZONTAL merge uses targetHeight = 200,
leaves A at 100×200, resizes B to 200×200, and yields a 300×200 result. -/
theorem example_merge_100x200_with_50x50 :
    targetWidthV (mkImage "RGB" 100 200) (mkImage "RGB" 50 50) = 100 ∧
    resizedHeightV (mkImage "RGB" 100 200) 100 = 200 ∧
    resizedHeightV (mkImage "RGB" 50 50) 100 = 100 ∧
    (∃ m, serviceCall constResample OrientationValue.vertical
        (mkImage "RGB" 100 200) (mkImage "RGB" 50 50) = Except.ok m ∧
      m.width = 100 ∧ m.height = 300) ∧
    targetHeightH (mkImage "RGB" 100 200) (mkImage "RGB" 50 50) = 200 ∧
    resizedWidthH (mkImage "RGB" 100 200) 200 = 100 ∧
    resizedWidthH (mkImage "RGB" 50 50) 200 = 200 ∧
    (∃ m, serviceCall constResample OrientationValue.horizontal
        (mkImage "RGB" 100 200) (mkImage "RGB" 50 50) = Except.ok m ∧
      m.width = 300 ∧ m.height = 200) :=
  ⟨rfl, rfl, rfl, ⟨_, rfl, rfl, rfl⟩, rfl, rfl, rfl, ⟨_, rfl, rfl, rfl⟩⟩

/-- C1: for images with positive dimensions, the vertical merge produces a
result of width `max(width1, width2)` and height `resizedHeight1 +
resizedHeight2`, each resized height proportional to the common target
width within one pixel of rounding, with image1 composited at `(0,0)` and
image2 at `(0, resizedHeight1)`. -/
theorem vertical_merge_dimensions_and_layout (resample : Resample)
    (img1 img2 : PILImage) (hw1 : 0 < img1.width) (_hh1 : 0 < img1.height)
    (hw2 : 0 < img2.width) (_hh2 : 0 < img2.height) :
    VerticalMergeSpec resample img1 img2 := by
  have e := mergeImagesVertically_eq resample img1 img2 hw1.ne' hw2.ne'
  refine ⟨_, e, rfl, rfl, ?_, ?_, ?_, ?_, ?_, ?_⟩
  · have h := natDiv_le_ratio (img1.height * targetWidthV img1 img2) img1.width hw1
    push_cast at h
    simpa [resizedHeightV] using h
  · have h := ratio_le_natDiv_succ (img1.height * targetWidthV img1 img2) img1.width hw1
    push_cast at h
    simpa [resizedHeightV] using h
  · have h := natDiv_le_ratio (img2.height * targetWidthV img1 img2) img2.width hw2
    push_cast at h
    simpa [resizedHeightV] using h
  · have h := ratio_le_natDiv_succ (img2.height * targetWidthV img1 img2) img2.width hw2
    push_cast at h
    simpa [resizedHeightV] using h
  · intro x y hx hy
    simp only [pasteAt, resizeImage, newRGB]
    rw [if_neg (by rintro ⟨-, -, h, -⟩; omega), if_pos ⟨Nat.zero_le x, by omega,
      Nat.zero_le y, by omega⟩]
    simp
  · intro x y hx hy1 hy2
    simp only [pasteAt, resizeImage, newRGB]
    rw [if_pos ⟨Nat.zero_le x, by omega, hy1, by omega⟩]
    simp

/-- Witness for C1 at the concrete pair 100×200 and 50×50. -/
theorem vertical_merge_dimensions_and_layout_witness :
    0 < (mkImage "RGB" 100 200).width ∧ 0 < (mkImage "RGB" 100 200).height ∧
    0 < (mkImage "RGB" 50 50).width ∧ 0 < (mkImage "RGB" 50 50).height ∧
    VerticalMergeSpec constResample (mkImage "RGB" 100 200) (mkImage "RGB" 50 50) :=
  ⟨by decide, by decide, by decide, by decide,
    vertical_merge_dimensions_and_layout constResample (mkImage "RGB" 100 200)
      (mkImage "RGB" 50 50) (by decide) (by decide) (by decide) (by decide)⟩

/-- C2: for images with positive dimensions, the horizontal merge produces
a result of height `max(height1, height2)` and width `resizedWidth1 +
resizedWidth2`, each resized width proportional to the common target height
within one pixel of rounding, with image1 composited at `(0,0)` and image2
at `(resizedWidth1, 0)`. -/
theorem horizontal_merge_dimensions_and_layout (resample : Resample)
    (img1 img2 : PILImage) (_hw1 : 0 < img1.width) (hh1 : 0 < img1.height)
    (_hw2 : 0 < img2.width) (hh2 : 0 < img2.height) :
    HorizontalMergeSpec resample img1 img2 := by
  have e := mergeImagesHorizontally_eq resample img1 img2 hh1.ne' hh2.ne'
  refine ⟨_, e, rfl, rfl, ?_, ?_, ?_, ?_, ?_, ?_⟩
  · have h := natDiv_le_ratio (img1.width * targetHeightH img1 img2) img1.height hh1
    push_cast at h
    simpa [resizedWidthH] using h
  · have h := ratio_le_natDiv_succ (img1.width * targetHeightH img1 img2) img1.height hh1
    push_cast at h
    simpa [resizedWidthH] using h
  · have h := natDiv_le_ratio (img2.width * targetHeightH img1 img2) img2.height hh2
    push_cast at h
    simpa [resizedWidthH] using h
  · have h := ratio_le_natDiv_succ (img2.width * targetHeightH img1 img2) img2.height hh2
    push_cast at h
    simpa [resizedWidthH] using h
  · intro x y hy hx
    simp only [pasteAt, resizeImage, newRGB]
    rw [if_neg (by rintro ⟨h, -, -, -⟩; omega), if_pos ⟨Nat.zero_le x, by omega,
      Nat.zero_le y, by omega⟩]
    simp
  · intro x y hy hx1 hx2
    simp only [pasteAt, resizeImage, newRGB]
    rw [if_pos ⟨hx1, by omega, Nat.zero_le y, by omega⟩]
    simp

/-- Witness for C2 at the concrete pair 100×200 and 50×50. -/
theorem horizontal_merge_dimensions_and_layout_witness :
    0 < (mkImage "RGB" 100 200).width ∧ 0 < (mkImage "RGB" 100 200).height ∧
    0 < (mkImage "RGB" 50 50).width ∧ 0 < (mkImage "RGB" 50 50).height ∧
    HorizontalMergeSpec constResample (mkImage "RGB" 100 200) (mkImage "RGB" 50 50) :=
  ⟨by decide, by decide, by decide, by decide,
    horizontal_merge_dimensions_and_layout constResample (mkImage "RGB" 100 200)
      (mkImage "RGB" 50 50) (by decide) (by decide) (by decide) (by decide)⟩

/-- `bind` on a successful `Except` computation. -/
lemma exceptOkBind {α β ε : Type} (a : α) (f : α → Except ε β) :
    (Except.ok a >>= f : Except ε β) = f a := rfl

/-- `bind` on a failed `Except` computation. -/
lemma exceptErrBind {α β ε : Type} (e : ε) (f : α → Except ε β) :
    (Except.error e >>= f : Except ε β) = Except.error e := rfl

/-- C3 counterexample: resizing a 3-wide, 5-high image to target width 4
(the vertical merge of a 3×5 image with a 4×4 image does exactly this), the
code computes `int(5 * 4 / 3) = 6`, while round-half-up and round-half-to-even
of the exact ratio 20/3 both give 7; the merged height is accordingly
6 + 4 = 10, not 7 + 4. -/
theorem resize_rounding_counterexample :
    scaledDim 5 4 3 = Except.ok 6 ∧
    roundHalfUp ((5 * 4 : ℚ) / 3) = 7 ∧
    roundHalfEven ((5 * 4 : ℚ) / 3) = 7 ∧
    (∃ m, mergeImagesVertically constResample (mkImage "RGB" 3 5)
        (mkImage "RGB" 4 4) = Except.ok m ∧ m.height = 10) ∧
    (6 : ℤ) ≠ 7 :=
  ⟨rfl, by norm_num [roundHalfUp], by norm_num [roundHalfEven], ⟨_, rfl, rfl⟩,
    by decide⟩

/-- C3 amended: the dimension computed by the resize step is the floor
(truncation) of the exact proportional value, not a round-half rounding. -/
theorem resize_dimension_is_floor (h T w : Nat) (hw : w ≠ 0) :
    scaledDim h T w = Except.ok ⌊((h : ℚ) * T) / w⌋₊ := by
  have hfloor : ⌊((h : ℚ) * T) / w⌋₊ = h * T / w := by
    rw [← Nat.cast_mul, Nat.floor_div_nat, Nat.floor_natCast]
  rw [scaledDim, if_neg hw, hfloor]

/-- Witness for the amended C3 at the counterexample's numbers. -/
theorem resize_dimension_is_floor_witness :
    (3 : Nat) ≠ 0 ∧ scaledDim 5 4 3 = Except.ok ⌊((5 : ℚ) * 4) / 3⌋₊ :=
  ⟨by decide, resize_dimension_is_floor 5 4 3 (by decide)⟩

/-- C4: with a zero-width first image, the vertical merge reaches
`int(image1.height * max_width / image1.width)` and divides by zero
(Python raises `ZeroDivisionError`); with a zero-height first image the
horizontal merge does the same.  No `InvalidImageError` validation exists
anywhere in the code, so no merged output and no `InvalidImageError` is
produced. -/
theorem zero_dimension_divides_by_zero :
    serviceCall constResample OrientationValue.vertical (mkImage "RGB" 0 10)
      (mkImage "RGB" 5 5) = Except.error PyError.zeroDivisionError ∧
    serviceCall constResample OrientationValue.horizontal (mkImage "RGB" 10 0)
      (mkImage "RGB" 5 5) = Except.error PyError.zeroDivisionError :=
  ⟨rfl, rfl⟩

/-- The vertical merge can fail only with `ZeroDivisionError`, never with
the unsupported-orientation `ValueError`. -/
lemma mergeImagesVertically_not_orientation_error (resample : Resample)
    (img1 img2 : PILImage) :
    mergeImagesVertically resample img1 img2
      ≠ Except.error PyError.valueErrorUnsupportedOrientation := by
  by_cases h1 : img1.width = 0
  · rw [show mergeImagesVertically resample img1 img2
        = Except.error PyError.zeroDivisionError from by
      simp only [mergeImagesVertically, scaledDim, if_pos h1, exceptErrBind]]
    simp
  · by_cases h2 : img2.width = 0
    · rw [show mergeImagesVertically resample img1 img2
          = Except.error PyError.zeroDivisionError from by
        simp only [mergeImagesVertically, scaledDim, if_neg h1, if_pos h2,
          exceptOkBind, exceptErrBind]]
      simp
    · rw [mergeImagesVertically_eq resample img1 img2 h1 h2]
      simp

/-- The horizontal merge can fail only with `ZeroDivisionError`, never with
the unsupported-orientation `ValueError`. -/
lemma mergeImagesHorizontally_not_orientation_error (resample : Resample)
    (img1 img2 : PILImage) :
    mergeImagesHorizontally resample img1 img2
      ≠ Except.error PyError.valueErrorUnsupportedOrientation := by
  by_cases h1 : img1.height = 0
  · rw [show mergeImagesHorizontally resample img1 img2
        = Except.error PyError.zeroDivisionError from by
      simp only [mergeImagesHorizontally, scaledDim, if_pos h1, exceptErrBind]]
    simp
  · by_cases h2 : img2.height = 0
    · rw [show mergeImagesHorizontally resample img1 img2
          = Except.error PyError.zeroDivisionError from by
        simp only [mergeImagesHorizontally, scaledDim, if_neg h1, if_pos h2,
          exceptOkBind, exceptErrBind]]
      simp
    · rw [mergeImagesHorizontally_eq resample img1 img2 h1 h2]
      simp

/-- C5: an orientation value outside the two enum members makes the service
fail with the unsupported-orientation error, and either defined member
never produces that error. -/
theorem unsupported_orientation_error_exactly_for_undefined (resample : Resample)
    (v : String) (img1 img2 : PILImage) :
    serviceCall resample (OrientationValue.other v) img1 img2
        = Except.error PyError.valueErrorUnsupportedOrientation ∧
    serviceCall resample OrientationValue.vertical img1 img2
        ≠ Except.error PyError.valueErrorUnsupportedOrientation ∧
    serviceCall resample OrientationValue.horizontal img1 img2
        ≠ Except.error PyError.valueErrorUnsupportedOrientation :=
  ⟨rfl, mergeImagesVertically_not_orientation_error resample img1 img2,
    mergeImagesHorizontally_not_orientation_error resample img1 img2⟩

/-- Pure value in the `Except` monad. -/
lemma exceptPure {α ε : Type} (a : α) : (pure a : Except ε α) = Except.ok a := rfl

/-- C7: a successful merge leaves every pre-existing buffer — in particular
both input images — unchanged, and its result is a freshly allocated buffer
distinct from both inputs; exactly three fresh buffers are allocated (the
two resized intermediates and the result canvas), all at fresh addresses. -/
theorem merge_never_mutates_inputs (resample : Resample) (ov : OrientationValue)
    (hp : Heap) (i1 i2 : Nat) (h' : Heap) (res : Nat)
    (hi1 : i1 < hp.size) (hi2 : i2 < hp.size)
    (hok : heapServiceCall resample ov hp i1 i2 = Except.ok (h', res)) :
    h'.size = hp.size + 3 ∧ (∀ i, i < hp.size → h'.buf i = hp.buf i) ∧
    hp.size ≤ res ∧ res ≠ i1 ∧ res ≠ i2 := by
  cases ov with
  | other v => simp [heapServiceCall] at hok
  | vertical =>
    by_cases h1 : (hp.buf i1).width = 0
    · simp only [heapServiceCall, heapMergeImagesVertically, scaledDim, if_pos h1,
        exceptErrBind] at hok
      exact absurd hok (by simp)
    · by_cases h2 : (hp.buf i2).width = 0
      · simp only [heapServiceCall, heapMergeImagesVertically, scaledDim, if_neg h1,
          if_pos h2, exceptOkBind, exceptErrBind] at hok
        exact absurd hok (by simp)
      · simp only [heapServiceCall, heapMergeImagesVertically, scaledDim, if_neg h1,
          if_neg h2, exceptOkBind, exceptPure, Heap.alloc, Heap.write,
          Except.ok.injEq, Prod.mk.injEq] at hok
        obtain ⟨hh, hres⟩ := hok
        subst hh
        subst hres
        refine ⟨by simp, ?_, by omega, by omega, by omega⟩
        intro i hi
        simp only
        split_ifs <;> first | rfl | omega
  | horizontal =>
    by_cases h1 : (hp.buf i1).height = 0
    · simp only [heapServiceCall, heapMergeImagesHorizontally, scaledDim, if_pos h1,
        exceptErrBind] at hok
      exact absurd hok (by simp)
    · by_cases h2 : (hp.buf i2).height = 0
      · simp only [heapServiceCall, heapMergeImagesHorizontally, scaledDim, if_neg h1,
          if_pos h2, exceptOkBind, exceptErrBind] at hok
        exact absurd hok (by simp)
      · simp only [heapServiceCall, heapMergeImagesHorizontally, scaledDim, if_neg h1,
          if_neg h2, exceptOkBind, exceptPure, Heap.alloc, Heap.write,
          Except.ok.injEq, Prod.mk.injEq] at hok
        obtain ⟨hh, hres⟩ := hok
        subst hh
        subst hres
        refine ⟨by simp, ?_, by omega, by omega, by omega⟩
        intro i hi
        simp only
        split_ifs <;> first | rfl | omega

/-- Witness for C7 on `demoHeap` with a vertical merge. -/
theorem merge_never_mutates_inputs_witness :
    0 < demoHeap.size ∧ 1 < demoHeap.size ∧
    (∃ h' res, heapServiceCall constResample OrientationValue.vertical demoHeap 0 1
        = Except.ok (h', res) ∧
      h'.size = demoHeap.size + 3 ∧ (∀ i, i < demoHeap.size → h'.buf i = demoHeap.buf i) ∧
      demoHeap.size ≤ res ∧ res ≠ 0 ∧ res ≠ 1) :=
  ⟨by decide, by decide,
    ⟨_, _, rfl, merge_never_mutates_inputs constResample OrientationValue.vertical
      demoHeap 0 1 _ _ (by decide) (by decide) rfl⟩⟩

/-- With a zero-width first image the vertical merge raises
`ZeroDivisionError` at the first resize. -/
lemma mergeImagesVertically_zero_left (resample : Resample) (img1 img2 : PILImage)
    (h1 : img1.width = 0) :
    mergeImagesVertically resample img1 img2 = Except.error PyError.zeroDivisionError := by
  simp only [mergeImagesVertically, scaledDim, if_pos h1, exceptErrBind]

/-- With a zero-width second image the vertical merge raises
`ZeroDivisionError` at the second resize. -/
lemma mergeImagesVertically_zero_right (resample : Resample) (img1 img2 : PILImage)
    (h1 : img1.width ≠ 0) (h2 : img2.width = 0) :
    mergeImagesVertically resample img1 img2 = Except.error PyError.zeroDivisionError := by
  simp only [mergeImagesVertically, scaledDim, if_neg h1, if_pos h2, exceptOkBind,
    exceptErrBind]

/-- With a zero-height first image the horizontal merge raises
`ZeroDivisionError` at the first resize. -/
lemma mergeImagesHorizontally_zero_left (resample : Resample) (img1 img2 : PILImage)
    (h1 : img1.height = 0) :
    mergeImagesHorizontally resample img1 img2 = Except.error PyError.zeroDivisionError := by
  simp only [mergeImagesHorizontally, scaledDim, if_pos h1, exceptErrBind]

/-- With a zero-height second image the horizontal merge raises
`ZeroDivisionError` at the second resize. -/
lemma mergeImagesHorizontally_zero_right (resample : Resample) (img1 img2 : PILImage)
    (h1 : img1.height ≠ 0) (h2 : img2.height = 0) :
    mergeImagesHorizontally resample img1 img2 = Except.error PyError.zeroDivisionError := by
  simp only [mergeImagesHorizontally, scaledDim, if_neg h1, if_pos h2, exceptOkBind,
    exceptErrBind]

/-- C8: whatever the modes of the inputs (an alpha channel included), a
successful merge returns a 3-channel RGB image: the result canvas is
created by `Image.new("RGB", …)` and pasting preserves the canvas mode. -/
theorem merged_result_is_rgb (resample : Resample) (ov : OrientationValue)
    (img1 img2 : PILImage) (m : PILImage)
    (hok : serviceCall resample ov img1 img2 = Except.ok m) :
    m.mode = "RGB" := by
  cases ov with
  | other v => simp [serviceCall] at hok
  | vertical =>
    by_cases h1 : img1.width = 0
    · rw [show serviceCall resample OrientationValue.vertical img1 img2
          = mergeImagesVertically resample img1 img2 from rfl,
        mergeImagesVertically_zero_left resample img1 img2 h1] at hok
      exact absurd hok (by simp)
    · by_cases h2 : img2.width = 0
      · rw [show serviceCall resample OrientationValue.vertical img1 img2
            = mergeImagesVertically resample img1 img2 from rfl,
          mergeImagesVertically_zero_right resample img1 img2 h1 h2] at hok
        exact absurd hok (by simp)
      · rw [show serviceCall resample OrientationValue.vertical img1 img2
            = mergeImagesVertically resample img1 img2 from rfl,
          mergeImagesVertically_eq resample img1 img2 h1 h2] at hok
        injection hok with hm
        subst hm
        rfl
  | horizontal =>
    by_cases h1 : img1.height = 0
    · rw [show serviceCall resample OrientationValue.horizontal img1 img2
          = mergeImagesHorizontally resample img1 img2 from rfl,
        mergeImagesHorizontally_zero_left resample img1 img2 h1] at hok
      exact absurd hok (by simp)
    · by_cases h2 : img2.height = 0
      · rw [show serviceCall resample OrientationValue.horizontal img1 img2
            = mergeImagesHorizontally resample img1 img2 from rfl,
          mergeImagesHorizontally_zero_right resample img1 img2 h1 h2] at hok
        exact absurd hok (by simp)
      · rw [show serviceCall resample OrientationValue.horizontal img1 img2
            = mergeImagesHorizontally resample img1 img2 from rfl,
          mergeImagesHorizontally_eq resample img1 img2 h1 h2] at hok
        injection hok with hm
        subst hm
        rfl

/-- Witness for C8 on two RGBA inputs. -/
theorem merged_result_is_rgb_witness :
    ∃ m, serviceCall constResample OrientationValue.vertical (mkImage "RGBA" 2 2)
        (mkImage "RGBA" 3 3) = Except.ok m ∧ m.mode = "RGB" :=
  ⟨_, rfl, merged_result_is_rgb constResample OrientationValue.vertical
    (mkImage "RGBA" 2 2) (mkImage "RGBA" 3 3) _ rfl⟩

/-- C9: the merge is deterministic in its output dimensions — the outcome's
dimensions (and error, if any) are a function of the input dimensions and
the orientation alone; in particular two runs on identical inputs, and even
runs with different pixel contents, modes or resampling filters but equal
dimensions, produce identical output dimensions. -/
theorem merge_dimensions_deterministic (r r' : Resample) (ov : OrientationValue)
    (img1 img2 img1' img2' : PILImage)
    (hw1 : img1.width = img1'.width) (hh1 : img1.height = img1'.height)
    (hw2 : img2.width = img2'.width) (hh2 : img2.height = img2'.height) :
    dimsOutcome (serviceCall r ov img1 img2)
      = dimsOutcome (serviceCall r' ov img1' img2') := by
  cases ov with
  | other v => rfl
  | vertical =>
    rw [show serviceCall r OrientationValue.vertical img1 img2
        = mergeImagesVertically r img1 img2 from rfl,
      show serviceCall r' OrientationValue.vertical img1' img2'
        = mergeImagesVertically r' img1' img2' from rfl]
    by_cases h1 : img1.width = 0
    · rw [mergeImagesVertically_zero_left r img1 img2 h1,
        mergeImagesVertically_zero_left r' img1' img2' (hw1 ▸ h1)]
    · by_cases h2 : img2.width = 0
      · rw [mergeImagesVertically_zero_right r img1 img2 h1 h2,
          mergeImagesVertically_zero_right r' img1' img2' (hw1 ▸ h1) (hw2 ▸ h2)]
      · rw [mergeImagesVertically_eq r img1 img2 h1 h2,
          mergeImagesVertically_eq r' img1' img2' (hw1 ▸ h1) (hw2 ▸ h2)]
        simp [dimsOutcome, Except.map, pasteAt, newRGB, targetWidthV, resizedHeightV,
          hw1, hh1, hw2, hh2]
  | horizontal =>
    rw [show serviceCall r OrientationValue.horizontal img1 img2
        = mergeImagesHorizontally r img1 img2 from rfl,
      show serviceCall r' OrientationValue.horizontal img1' img2'
        = mergeImagesHorizontally r' img1' img2' from rfl]
    by_cases h1 : img1.height = 0
    · rw [mergeImagesHorizontally_zero_left r img1 img2 h1,
        mergeImagesHorizontally_zero_left r' img1' img2' (hh1 ▸ h1)]
    · by_cases h2 : img2.height = 0
      · rw [mergeImagesHorizontally_zero_right r img1 img2 h1 h2,
          mergeImagesHorizontally_zero_right r' img1' img2' (hh1 ▸ h1) (hh2 ▸ h2)]
      · rw [mergeImagesHorizontally_eq r img1 img2 h1 h2,
          mergeImagesHorizontally_eq r' img1' img2' (hh1 ▸ h1) (hh2 ▸ h2)]
        simp [dimsOutcome, Except.map, pasteAt, newRGB, targetHeightH, resizedWidthH,
          hw1, hh1, hw2, hh2]

/-- Witness for C9: same dimensions, different modes and filters. -/
theorem merge_dimensions_deterministic_witness :
    (mkImage "RGB" 7 5).width = (mkImage "RGBA" 7 5).width ∧
    (mkImage "RGB" 7 5).height = (mkImage "RGBA" 7 5).height ∧
    (mkImage "RGB" 4 9).width = (mkImage "L" 4 9).width ∧
    (mkImage "RGB" 4 9).height = (mkImage "L" 4 9).height ∧
    dimsOutcome (serviceCall constResample OrientationValue.horizontal
        (mkImage "RGB" 7 5) (mkImage "RGB" 4 9))
      = dimsOutcome (serviceCall altResample OrientationValue.horizontal
        (mkImage "RGBA" 7 5) (mkImage "L" 4 9)) :=
  ⟨rfl, rfl, rfl, rfl,
    merge_dimensions_deterministic constResample altResample
      OrientationValue.horizontal (mkImage "RGB" 7 5) (mkImage "RGB" 4 9)
      (mkImage "RGBA" 7 5) (mkImage "L" 4 9) rfl rfl rfl rfl⟩

/-- C10: when an image's relevant dimension already equals the merge
target — its width is the larger width for a vertical merge (`h` standing
for its height, `w` its width), or symmetrically its height is the larger
height for a horizontal merge (`h` standing for its width, `w` its
height) — the resize computation `int(h * max(w, w2) / w)` is exactly `h`:
the image keeps both its dimensions, whichever argument order the max
takes. -/
theorem resize_identity_on_max_sized_image (h w w2 : Nat)
    (hpos : 0 < w) (hle : w2 ≤ w) :
    scaledDim h (max w w2) w = Except.ok h ∧
    scaledDim h (max w2 w) w = Except.ok h := by
  have hm1 : max w w2 = w := Nat.max_eq_left hle
  have hm2 : max w2 w = w := Nat.max_eq_right hle
  have hdiv : h * w / w = h := Nat.mul_div_cancel h hpos
  exact ⟨by rw [hm1]; simp [scaledDim, hpos.ne', hdiv],
    by rw [hm2]; simp [scaledDim, hpos.ne', hdiv]⟩

/-- Witness for C10 at height 200, width 100, other width 50 (the A image
of the spec's example). -/
theorem resize_identity_on_max_sized_image_witness :
    0 < 100 ∧ 50 ≤ 100 ∧
    (scaledDim 200 (max 100 50) 100 = Except.ok 200 ∧
      scaledDim 200 (max 50 100) 100 = Except.ok 200) :=
  ⟨by decide, by decide,
    resize_identity_on_max_sized_image 200 100 50 (by decide) (by decide)⟩
